import Mathlib

/-!
# Verification of the domchatbot resident-application bot (`src/bot.py`)

This file gives a shallow embedding in Lean 4 of the parts of `src/bot.py`
(version 1.5.1 of the Telegram resident-verification bot) that the checked
claims are about, and proves or refutes those claims.

Conventions of the embedding:
* Python strings are Lean `String`s; character classification uses
  `Char.isDigit` / `Char.isWhitespace` (ASCII digits and common whitespace,
  which is what all reachable inputs of the bot use).
* Python dicts keyed by a user-id string are association lists
  (`Dict α := List (String × α)`); dict update keeps the position of an
  existing key and appends a fresh one, dict deletion removes the first
  binding, exactly as a Python `dict` behaves on its unique keys.
* JSON file persistence (`load_json` / `save_json_with_backup`) is modelled
  by threading a `Store` value through the handlers; a save is modelled as
  succeeding (the happy path of the file system), which is the case all
  checked claims speak about.
* Outbound Telegram sends are modelled as a list of `OutMsg` tags, one
  constructor per distinct message of the source, carrying the recipient's
  chat id.  `try/except` best-effort sends are modelled as recorded sends.
* Exceptions that escape a handler (`KeyError` on a missing
  `context.user_data` key, the `NameError` in the `bl_refresh` branch) are
  modelled by an `Option` result, `none` being the escaped exception.
-/

namespace DomChatBot

/-! ## Constants of the source (`STATUS_TEXT` and the fixed block reason) -/

/-- Model of `STATUS_TEXT["pending"]` from `bot.py`. -/
def STATUS_pending : String := "⏳ На рассмотрении"

/-- Model of `STATUS_TEXT["approved"]` from `bot.py`. -/
def STATUS_approved : String := "✅ Одобрена"

/-- Model of `STATUS_TEXT["rejected"]` from `bot.py`. -/
def STATUS_rejected : String := "❌ Отклонена"

/-- The fixed rejection reason written when a user is blocked
(`"⛔ Пользователь заблокирован"`, used at lines 875, 1015, 1403, 1934, 2597). -/
def BLOCKED_REASON : String := "⛔ Пользователь заблокирован"

/-! ## `normalize_cadastre` (bot.py lines 408-417)

```python
def normalize_cadastre(text: str) -> Optional[str]:
    digits = ''.join(c for c in text if c.isdigit())
    if len(digits) < 12 or len(digits) > 20:
        return None
    try:
        return f"{digits[:2]}:{digits[2:4]}:{digits[4:-3]}:{digits[-3:]}"
    except IndexError:
        return None
```

`digits[4:-3]` is the slice from index 4 up to (excluding) index
`len - 3`, i.e. `(digits.drop 4).take (digits.length - 7)`; `digits[-3:]`
is `digits.drop (digits.length - 3)`.  Slicing never raises `IndexError`
in Python, so the `except` arm is dead code and does not appear in the
model. -/

/-- The format step of `normalize_cadastre`, applied to the extracted digit
sequence (the body after the `digits = ...` line). -/
def format_digits (digits : List Char) : Option String :=
  if digits.length < 12 || digits.length > 20 then none
  else some (String.mk (digits.take 2 ++ ':' ::
    ((digits.drop 2).take 2 ++ ':' ::
      ((digits.drop 4).take (digits.length - 7) ++ ':' ::
        digits.drop (digits.length - 3)))))

/-- Model of `normalize_cadastre` from bot.py: keep the digit characters, then format. -/
def normalize_cadastre (text : String) : Option String :=
  format_digits (text.data.filter Char.isDigit)

/-- The output shape claimed by the spec, built from a digit sequence by the
spec's words: first 2 digits, next 2 digits, all but the last 3 of the
remaining digits, last 3 digits, joined by colons.  (Spec-side definition,
compared with the source-side `normalize_cadastre` in claim C1.) -/
def claimed_cadastre_format (ds : List Char) : String :=
  String.mk (ds.take 2) ++ ":" ++ String.mk ((ds.drop 2).take 2) ++ ":" ++
    String.mk ((ds.drop 4).take ((ds.drop 4).length - 3)) ++ ":" ++
    String.mk (ds.drop (ds.length - 3))

/-! ## Claim C2's insertion relation

`DigitPadded s t` holds exactly when `t` is obtained from `s` by inserting
arbitrary non-digit characters at arbitrary positions. -/

/-- Relation stating that `t` arises from `s` by inserting non-digit characters anywhere. -/
inductive DigitPadded : List Char → List Char → Prop
  | nil : DigitPadded [] []
  | keep (c : Char) {s t : List Char} :
      DigitPadded s t → DigitPadded (c :: s) (c :: t)
  | pad (c : Char) (hc : c.isDigit = false) {s t : List Char} :
      DigitPadded s t → DigitPadded s (c :: t)

theorem DigitPadded.filter_eq {s t : List Char} (h : DigitPadded s t) :
    t.filter Char.isDigit = s.filter Char.isDigit := by
  induction h with
  | nil => rfl
  | keep c _ ih => simp [List.filter_cons, ih]
  | pad c hc _ ih => simp [List.filter_cons, hc, ih]

/-! ## Python string helpers used by the handlers -/

/-- Python `str.strip()`: drop whitespace from both ends. -/
def pyStrip (s : String) : String :=
  String.mk (((s.data.dropWhile Char.isWhitespace).reverse.dropWhile
    Char.isWhitespace).reverse)

/-- Python `str.lower()` on the alphabets the bot uses (ASCII and Cyrillic;
`Ё` maps to `ё`, `А`-`Я` shift by 0x20 exactly as in Unicode). -/
def pyLowerChar (c : Char) : Char :=
  if 'A' ≤ c ∧ c ≤ 'Z' then Char.ofNat (c.toNat + 32)
  else if 'А' ≤ c ∧ c ≤ 'Я' then Char.ofNat (c.toNat + 32)
  else if c = 'Ё' then 'ё'
  else c

/-- Python `str.lower()`. -/
def pyLower (s : String) : String := String.mk (s.data.map pyLowerChar)

/-- Python `needle in hay` on strings (substring containment). -/
def listContainsSub (hay needle : List Char) : Bool := decide (needle <:+: hay)

/-- Python `str.isdigit()`: non-empty and all digit characters. -/
def pyIsDigitStr (s : String) : Bool := !s.data.isEmpty && s.data.all Char.isDigit

/-- Value of a digit sequence in base 10. -/
def digitsVal (cs : List Char) : Nat :=
  cs.foldl (fun acc c => acc * 10 + (c.toNat - '0'.toNat)) 0

/-- Python `int(text)` on an already-stripped string: an optional minus sign
followed by at least one digit; anything else raises `ValueError` (`none`). -/
def pyInt? (s : String) : Option Int :=
  match s.data with
  | [] => none
  | '-' :: rest =>
      if !rest.isEmpty && rest.all Char.isDigit then some (-(digitsVal rest : Int))
      else none
  | cs =>
      if cs.all Char.isDigit then some ((digitsVal cs : Int)) else none

/-- Letters accepted by the bot's inputs: ASCII and Cyrillic (Python's
Unicode-aware `isalpha`/regex restricted to the alphabets in the patterns). -/
def pyIsAlpha (c : Char) : Bool :=
  ('a' ≤ c && c ≤ 'z') || ('A' ≤ c && c ≤ 'Z') ||
  ('а' ≤ c && c ≤ 'я') || ('А' ≤ c && c ≤ 'Я') || c == 'ё' || c == 'Ё'

/-- The regex `^\d+[a-zA-Zа-яА-ЯёЁ]?$` of `validate_flat_number`. -/
def flatPatternMatch (cs : List Char) : Bool :=
  (!cs.isEmpty && cs.all Char.isDigit) ||
  (!cs.dropLast.isEmpty && cs.dropLast.all Char.isDigit &&
    (match cs.getLast? with
     | some c => pyIsAlpha c
     | none => false))

/-- Model of `validate_flat_number` (bot.py lines 397-406): strip, non-empty, at most
4 characters, digits optionally followed by one letter. -/
def validate_flat_number (text : String) : Bool :=
  let t := pyStrip text
  if t.data.isEmpty then false
  else if t.data.length > 4 then false
  else flatPatternMatch t.data

/-- Model of `AUTO_HELP_KEYWORDS` from bot.py. -/
def AUTO_HELP_KEYWORDS : List String :=
  ["зачем", "почему", "кадастр", "кадастров", "помощь", "справка"]

/-! ## The persistent store: Python dicts as association lists -/

/-- Lookup, i.e. `d.get(k)` / `d[k]`-with-`in`-guard on a Python dict. -/
def dictGet {α : Type} : List (String × α) → String → Option α
  | [], _ => none
  | (k', v) :: rest, k => if k' = k then some v else dictGet rest k

/-- Update, i.e. `d[k] = v` on a Python dict: replace the binding in place, or append. -/
def dictSet {α : Type} : List (String × α) → String → α → List (String × α)
  | [], k, v => [(k, v)]
  | (k', v') :: rest, k, v =>
      if k' = k then (k, v) :: rest else (k', v') :: dictSet rest k v

/-- Deletion, i.e. `del d[k]` on a Python dict (keys are unique, so dropping the first
binding is dropping the only one). -/
def dictDel {α : Type} : List (String × α) → String → List (String × α)
  | [], _ => []
  | (k', v') :: rest, k => if k' = k then rest else (k', v') :: dictDel rest k

/-- Well-formedness of a dict image: keys are pairwise distinct (every
Python dict satisfies this). -/
def keyNodup {α : Type} (l : List (String × α)) : Prop := (l.map Prod.fst).Nodup

/-- One application record (a value of `applications.json` / `archive.json`).
`username`, `file` and `reject_reason` are `Option` because the source sets
those dict keys only on some paths. -/
structure AppRecord where
  user_id : Int
  name : String
  username : Option String
  house_id : String
  flat : String
  cadastre : String
  file : Option String
  status : String
  reject_reason : Option String
  created_at : String
deriving DecidableEq

/-- The persistent state: `applications.json`, `blacklist.json`,
`archive.json`. -/
structure Store where
  apps : List (String × AppRecord)
  blacklist : List Int
  archive : List (String × AppRecord)
deriving DecidableEq

/-- Model of `move_to_archive` (bot.py lines 419-428): copy the record into the
archive and delete it from the active applications. -/
def move_to_archive (st : Store) (app_id : String) (app_data : AppRecord) : Store :=
  { st with archive := dictSet st.archive app_id app_data,
            apps := dictDel st.apps app_id }

/-- Model of `is_admin` (line 357). -/
def is_admin (admins : List Int) (uid : Int) : Bool := admins.contains uid

/-- Model of `is_blocked` (line 360). -/
def is_blocked (st : Store) (uid : Int) : Bool := st.blacklist.contains uid

/-! ## Ephemeral per-user session (`context.user_data`) and per-chat admin
state (`context.chat_data`) -/

/-- The `contact_data` sub-dict of a session. -/
structure ContactData where
  text : String
  files : List String
deriving DecidableEq

/-- State of `context.user_data` for one end user: the step tag and the accumulated
partial entries. `none` models an absent dict key. -/
structure Session where
  step : Option String := none
  house_id : Option String := none
  flat : Option String := none
  cad : Option String := none
  contact_data : Option ContactData := none
deriving DecidableEq

/-- Result of `context.user_data.clear()`. -/
def Session.empty : Session := {}

/-- State of the `context.chat_data` keys used by the admin flows. -/
structure ChatData where
  pending_reject_app : Option String := none
  rejecting_app : Option String := none
  replying_to : Option String := none
  replying_to_custom : Option String := none
  blacklist_action : Option String := none
  archive_action : Option String := none
  archive_replying_to : Option String := none
deriving DecidableEq

/-- The Telegram user attached to an inbound event. -/
structure UserInfo where
  id : Int
  full_name : String
  username : Option String
deriving DecidableEq

/-- One configured house (`HOUSES` entry). -/
structure House where
  address : String
  chat_link : String
deriving DecidableEq

/-! ## Outbound messages

One constructor per distinct outbound send of the modelled handlers, carrying
the recipient chat id (edits of the pressed button's message go to the
presser's chat). -/

inductive OutMsg
  | blockedNotice (chat : Int)        -- "🚫 Вы заблокированы..." (lines 865, 1005, 1393, 1922, 2584)
  | noRights (chat : Int)             -- "❌ У вас нет прав для этого действия." (line 1827)
  | actionCancelled (chat : Int)      -- "↩️ Действие отменено."
  | replyCancelled (chat : Int)       -- "↩️ Ответ отменен."
  | unknownCommand (chat : Int)       -- "❌ Неизвестная команда." (line 2101)
  | invalidUserId (chat : Int)        -- "❌ Неверный ID пользователя." (line 1906)
  | adminReplyForwarded (chat : Int)  -- the reply_template send + confirmation
  | blockConfirm (chat : Int)         -- "⛔ Пользователь заблокирован ..." summary (line 1944)
  | alreadyBlocked (chat : Int)       -- "⚠️ Пользователь уже заблокирован..."
  | unblockedNotice (chat : Int)      -- "✅ Вы разблокированы в боте."
  | unblockConfirm (chat : Int)       -- "✅ Пользователь разблокирован ..."
  | notBlockedInfo (chat : Int)       -- "ℹ️ Пользователь не был заблокирован..."
  | approveConfirm (chat : Int)       -- "✅ Заявка одобрена, ссылка отправлена..."
  | approveLinkFailed (chat : Int)    -- "✅ Заявка одобрена, но ошибка отправки ссылки..."
  | approvedFallbackNotice (chat : Int) -- invite: house unknown (line 1321)
  | approvedNoLinkNotice (chat : Int) -- invite: chat link not configured (line 1332)
  | inviteMessage (chat : Int)        -- invite with the chat link (line 1356)
  | linkSentNote (chat : Int)         -- "📨 Отправлена ссылка..." to each admin
  | chooseRejectReason (chat : Int)   -- "📝 Выберите причину отклонения:"
  | chooseReply (chat : Int)          -- "✉️ Выберите типовой ответ..."
  | enterRejectReason (chat : Int)    -- "✏️ Введите свою причину отклонения:"
  | enterReply (chat : Int)           -- "✏️ Введите свой ответ:"
  | rejectedUserNotice (app_id : String) -- "❌ Ваша заявка отклонена..." to int(app_id)
  | rejectedAdminConfirm (chat : Int) -- "✅ Заявка отклонена и перенесена в архив..."
  | archiveEmpty (chat : Int)
  | archiveHeader (chat : Int)
  | archiveEntry (chat : Int) (app_id : String)
  | archiveNotFound (chat : Int)
  | archiveDetail (chat : Int) (app_id : String)
  | archiveSearchPrompt (chat : Int)
  | archiveMsgPrompt (chat : Int)
  | archiveMenu (chat : Int)
  | blacklistAddPrompt (chat : Int)
  | blacklistRemovePrompt (chat : Int)
  | blacklistCancelled (chat : Int)   -- "❌ Действие отменено. Черный список не изменен."
  | invalidIdFormat (chat : Int)      -- "❌ Неверный формат ID..."
  | idNotPositive (chat : Int)        -- "❌ ID должен быть положительным числом."
  | idTooSmall (chat : Int)           -- "⚠️ ID слишком маленький..."
  | alreadyInBlacklist (chat : Int)
  | addedToBlacklist (chat : Int)
  | removedFromBlacklist (chat : Int)
  | notInBlacklist (chat : Int)
  | noActiveApp (chat : Int)          -- "📭 У вас нет активных заявок."
  | statusInfo (chat : Int)           -- "📋 Статус заявки: ..."
  | contactPrompt (chat : Int)        -- "✉️ Напишите ваше сообщение администратору"
  | contactCancelled (chat : Int)     -- "❌ Отправка сообщения отменена."
  | entryCancelled (chat : Int)       -- "❌ Ввод данных отменен."
  | systemUnavailable (chat : Int)    -- "⚠️ Система временно недоступна."
  | newAppIntro (chat : Int)          -- "👋 Начинаем оформление заявки..."
  | enterFlatPrompt (chat : Int)      -- "Введите номер вашей квартиры:"
  | chooseHousePrompt (chat : Int)    -- "🏠 Выберите ваш адрес..."
  | enterDigitPrompt (chat : Int)     -- "❌ Введите цифру"
  | houseChoiceInvalid (chat : Int)   -- "❌ Введите число от 1 до N"
  | contactForward (chat : Int)       -- contact message forwarded to an admin
  | contactSentNotice (chat : Int)    -- "✅ Сообщение отправлено администратору!"
  | flatInvalid (chat : Int)          -- "❌ Неверный формат номера квартиры."
  | enterCadPrompt (chat : Int)       -- "Введите кадастровый номер или отправьте файл..."
  | cadInvalid (chat : Int)           -- "❌ Не удалось распознать кадастровый номер." (line 1632)
  | cadConfirmPrompt (chat : Int)     -- "📋 Проверьте введенные данные... Всё верно?"
  | helpText (chat : Int)             -- HELP_TEXT
  | helpFlatHint (chat : Int)
  | helpCadHint (chat : Int)
  | helpContactHint (chat : Int)
  | newAppNotice (chat : Int)         -- notify_admins_about_new_app per-admin send
  | appSubmittedEdit (chat : Int)     -- "✅ Заявка отправлена на рассмотрение!"
  | appConfirmation (chat : Int)      -- full confirmation message after cad_ok
  | advice (chat : Int)               -- ADVICE_TEXT
  | cadRePrompt (chat : Int)          -- re-prompt after the retry button (cad_no)

/-! ## Shared blocked-user prelude

Lines 864-878 (`start`), 1004-1018 (`handle_file`) and 1392-1406
(`handle_message`) are the same code: send the block notice, and if the
user still has a pending application, reject it with the fixed blocked
reason and move it to the archive. -/

def blocked_guard (st : Store) (uid : Int) : Store × List OutMsg :=
  let key := toString uid
  match dictGet st.apps key with
  | some app =>
      if app.status = STATUS_pending then
        let app2 := { app with status := STATUS_rejected,
                               reject_reason := some BLOCKED_REASON }
        (move_to_archive st key app2, [.blockedNotice uid])
      else (st, [.blockedNotice uid])
  | none => (st, [.blockedNotice uid])

/-! ## User-side handlers -/

/-- Model of `has_empty_name` (lines 363-378), on the user's `full_name`. -/
def has_empty_name (full_name : String) : Bool :=
  if full_name = "" then true
  else
    let name := pyStrip full_name
    if name = "" then true
    else if name.data.length < 2 then true
    else if ((name.data.filter pyIsAlpha).length < 1) then true
    else false

/-- Model of `has_empty_username` (lines 380-381). -/
def has_empty_username (username : Option String) : Bool :=
  match username with
  | none => true
  | some u => u = "" || pyStrip u = ""

/-- Model of `should_show_advice` (lines 383-384). -/
def should_show_advice (u : UserInfo) : Bool :=
  has_empty_name u.full_name || has_empty_username u.username

/-- Model of `show_context_help` (lines 2661-2692): HELP_TEXT plus a step-specific
hint; no state change. -/
def show_context_help (uid : Int) (sess : Session) : List OutMsg :=
  OutMsg.helpText uid ::
    (if sess.step == some "flat" then [.helpFlatHint uid]
     else if sess.step == some "cad" then [.helpCadHint uid]
     else if sess.step == some "contact" then [.helpContactHint uid]
     else [])

/-- The callback payloads handled by `handle_user_callback`. -/
inductive UserCbData
  | cad_ok
  | cad_no
deriving DecidableEq

/-- Model of `handle_user_callback` (lines 1166-1251).  `now` is the
`datetime.now(timezone.utc).isoformat()` of the save.  `none` models the
`KeyError` raised when `context.user_data` lacks `house_id`/`flat`/`cad`. -/
def handle_user_callback (admins : List Int) (now : String)
    (st : Store) (sess : Session) (u : UserInfo) (d : UserCbData) :
    Option (Store × Session × List OutMsg) :=
  match d with
  | .cad_ok =>
      match sess.house_id, sess.flat, sess.cad with
      | some house_id, some flat, some cad =>
          let app : AppRecord :=
            { user_id := u.id, name := u.full_name, username := u.username,
              house_id := house_id, flat := flat, cadastre := cad, file := none,
              status := STATUS_pending, reject_reason := none, created_at := now }
          let st2 := { st with apps := dictSet st.apps (toString u.id) app }
          some (st2, Session.empty,
            admins.map (fun a => OutMsg.newAppNotice a) ++
              [.appSubmittedEdit u.id, .appConfirmation u.id] ++
              (if should_show_advice u then [.advice u.id] else []))
      | _, _, _ => none
  | .cad_no =>
      match sess.flat with
      | some _ =>
          some (st, { sess with cad := none, step := some "cad" }, [.cadRePrompt u.id])
      | none => none

/-- Model of `handle_user_message` (lines 1421-1664).  `text` is already stripped by
`handle_message`.  (The `contact` step writes `contact_data["text"]` and then
`send_contact_message` forwards it to every admin and clears the session;
the bot only reaches that step with `contact_data` present.) -/
def handle_user_message (admins : List Int) (houses : List (String × House))
    (st : Store) (sess : Session) (uid : Int) (text : String) :
    Store × Session × List OutMsg :=
  let user_app := dictGet st.apps (toString uid)
  if text = "📋 Статус заявки" then
    match user_app with
    | none => (st, sess, [.noActiveApp uid])
    | some _ => (st, sess, [.statusInfo uid])
  else if text = "📨 Написать админу" then
    (st, { sess with step := some "contact", contact_data := some ⟨"", []⟩ },
     [.contactPrompt uid])
  else if text.length == 1 && sess.step == some "contact" then
    (st, Session.empty, [.contactCancelled uid])
  else if text = "❌ Отмена" then
    (st, Session.empty, [.entryCancelled uid])
  else if text = "📝 Подать заявку" || text = "📝 Подать новую заявку" then
    if houses.isEmpty then (st, Session.empty, [.systemUnavailable uid])
    else
      match houses with
      | [(hid, _)] =>
          (st, { Session.empty with house_id := some hid, step := some "flat" },
           [.newAppIntro uid, .enterFlatPrompt uid])
      | _ =>
          (st, { Session.empty with step := some "select_house" },
           [.newAppIntro uid, .chooseHousePrompt uid])
  else if sess.step == some "select_house" then
    match pyInt? text with
    | none => (st, sess, [.enterDigitPrompt uid])
    | some choice =>
        if 1 ≤ choice ∧ choice ≤ (houses.length : Int) then
          match houses.get? (choice - 1).toNat with
          | some (hid, _) =>
              (st, { sess with house_id := some hid, step := some "flat" },
               [.enterFlatPrompt uid])
          | none => (st, sess, [.houseChoiceInvalid uid])
        else (st, sess, [.houseChoiceInvalid uid])
  else if sess.step == some "contact" then
    (st, Session.empty,
     admins.map (fun a => OutMsg.contactForward a) ++ [.contactSentNotice uid])
  else if sess.step == some "flat" then
    if !validate_flat_number text then (st, sess, [.flatInvalid uid])
    else
      (st, { sess with flat := some (pyStrip text), step := some "cad" },
       [.enterCadPrompt uid])
  else if sess.step == some "cad" then
    match normalize_cadastre text with
    | none => (st, sess, [.cadInvalid uid])
    | some cad =>
        (st, { sess with cad := some cad }, [.cadConfirmPrompt uid])
  else (st, sess, [])

/-- Model of `handle_message` (lines 1389-1419): blocked guard, strip, context help,
then dispatch by role.  The admin text flow (lines 1666-1807) is passed as
`adminCont`, since no checked claim constrains it and blocked/non-admin
events never reach it. -/
def handle_message (admins : List Int) (houses : List (String × House))
    (adminCont : Store → Session → String → Store × Session × List OutMsg)
    (st : Store) (sess : Session) (uid : Int) (rawText : String) :
    Store × Session × List OutMsg :=
  if !is_admin admins uid && is_blocked st uid then
    let (st2, msgs) := blocked_guard st uid
    (st2, sess, msgs)
  else
    let text := pyStrip rawText
    let lower := pyLower text
    if text = "❓ Помощь" ||
        AUTO_HELP_KEYWORDS.any (fun kw => listContainsSub lower.data kw.data) then
      (st, sess, show_context_help uid sess)
    else if is_admin admins uid then adminCont st sess text
    else handle_user_message admins houses st sess uid text

/-- Model of `start` (lines 858-999): the session is cleared first (line 862), then
the blocked guard runs; the welcome / admin-panel / first-prompt flow of the
non-blocked branch (lines 880-999) is passed as `rest`, since the checked
claims only constrain the blocked branch, which returns before it. -/
def start_handler (admins : List Int) (st : Store) (uid : Int)
    (rest : Store → Store × Session × List OutMsg) :
    Store × Session × List OutMsg :=
  if !is_admin admins uid && is_blocked st uid then
    let (st2, msgs) := blocked_guard st uid
    (st2, Session.empty, msgs)
  else rest st

/-- Model of `handle_file` (lines 1001-1164): blocked guard, then the upload flow
(passed as `rest`; it performs network file transfers outside this model). -/
def handle_file (admins : List Int) (st : Store) (sess : Session) (uid : Int)
    (rest : Store → Session → Store × Session × List OutMsg) :
    Store × Session × List OutMsg :=
  if !is_admin admins uid && is_blocked st uid then
    let (st2, msgs) := blocked_guard st uid
    (st2, sess, msgs)
  else rest st sess

/-- Model of `admin_text_handler` (lines 2735-2751), the group-1 text
handler registered alongside `handle_message` (group 2); the framework runs
one handler of each group on the same text update, this one first.  Its
first branch — a one-character stripped text while the session step is
`contact` — clears the session and replies with the contact-cancellation
notice, with no admin or blocklist check; its second branch forwards admins
that have a pending chat action to `handle_admin_reply`, passed as
`adminReplyCont` since no checked claim constrains it and non-admins never
reach it. -/
def admin_text_handler (admins : List Int) (st : Store) (sess : Session)
    (cd : ChatData) (uid : Int) (rawText : String)
    (adminReplyCont : Store → Session → ChatData → String →
      Store × Session × ChatData × List OutMsg) :
    Store × Session × ChatData × List OutMsg :=
  let text := pyStrip rawText
  if text.length == 1 && sess.step == some "contact" then
    (st, Session.empty, cd, [.contactCancelled uid])
  else if is_admin admins uid &&
      (cd.rejecting_app.isSome || cd.replying_to_custom.isSome ||
        cd.blacklist_action.isSome || cd.archive_action.isSome ||
        cd.archive_replying_to.isSome) then
    adminReplyCont st sess cd text
  else (st, sess, cd, [])

/-- One inbound text-message update as the application dispatches it
(lines 2753-2755): `admin_text_handler` (group 1) runs first, then
`handle_message` (group 2) runs on the same update, seeing the session and
store the group-1 handler left behind; both handlers' replies are sent. -/
def text_message_event (admins : List Int) (houses : List (String × House))
    (adminReplyCont : Store → Session → ChatData → String →
      Store × Session × ChatData × List OutMsg)
    (adminCont : Store → Session → String → Store × Session × List OutMsg)
    (st : Store) (sess : Session) (cd : ChatData) (uid : Int)
    (rawText : String) : Store × Session × ChatData × List OutMsg :=
  let r1 := admin_text_handler admins st sess cd uid rawText adminReplyCont
  let r2 := handle_message admins houses adminCont r1.1 r1.2.1 uid rawText
  (r2.1, r2.2.1, r1.2.2.1, r1.2.2.2 ++ r2.2.2)

/-! ## Admin-side handlers -/

/-- Model of `send_simple_invite` (lines 1317-1386): invite the approved user to the
house chat; `false` when the house or its link is missing. -/
def send_simple_invite (houses : List (String × House)) (admins : List Int)
    (uid : Int) (app : AppRecord) : Bool × List OutMsg :=
  if app.house_id = "" then (false, [.approvedFallbackNotice uid])
  else
    match dictGet houses app.house_id with
    | none => (false, [.approvedFallbackNotice uid])
    | some h =>
        if h.chat_link = "" then (false, [.approvedNoLinkNotice uid])
        else (true, .inviteMessage uid :: admins.map (fun a => OutMsg.linkSentNote a))

/-- Model of `process_rejection` (lines 2103-2135): set the record to rejected with
the given reason, move it to the archive, notify the applicant, pop the
`pending_reject_app` chat key; `false` when there is no such record. -/
def process_rejection (st : Store) (cd : ChatData) (app_id : String)
    (reason : String) (notifier : Int) : Store × ChatData × List OutMsg × Bool :=
  match dictGet st.apps app_id with
  | some app =>
      let app2 := { app with status := STATUS_rejected, reject_reason := some reason }
      (move_to_archive st app_id app2,
       { cd with pending_reject_app := none },
       [.rejectedUserNotice app_id, .rejectedAdminConfirm notifier],
       true)
  | none => (st, cd, [], false)

/-- The decoded payload of an admin callback: `data` of the source is either
`"cancel:..."`, `"cancel_reply:..."`, `"action:target[:extra]"`, or a string
without a colon. -/
inductive AdminCbData
  | cancel
  | cancelReply
  | act (action : String) (target : String) (extra : Option String)
  | plain
deriving DecidableEq

/-- Model of `handle_admin_callback` (lines 1825-2101).  Template buttons carry a
`str(hash(template) % 10000)` token; Python's string hash is randomized per
process, so the token-to-template lookup is modelled by the oracles
`resolveRejectTemplate` / `resolveReplyTemplate` (returning `none` when no
template matches, in which case the source falls through to the
"unknown command" tail).  `int(target_id)` is `pyInt?`. -/
def handle_admin_callback (admins : List Int) (houses : List (String × House))
    (resolveRejectTemplate : String → Option String)
    (resolveReplyTemplate : String → Option String)
    (st : Store) (cd : ChatData) (sender : Int) (d : AdminCbData) :
    Store × ChatData × List OutMsg :=
  if !is_admin admins sender then (st, cd, [.noRights sender])
  else match d with
  | .cancel => (st, cd, [.actionCancelled sender])
  | .cancelReply => (st, cd, [.replyCancelled sender])
  | .plain => (st, cd, [.unknownCommand sender])
  | .act action target extra =>
    match (if action = "reject_template" then extra.bind resolveRejectTemplate
           else none) with
    | some template =>
        let r := process_rejection st cd target template sender
        (r.1, r.2.1, r.2.2.1)
    | none =>
      match (if action = "reply_template" then extra.bind resolveReplyTemplate
             else none) with
      | some _ => (st, cd, [.adminReplyForwarded sender])
      | none =>
        match pyInt? target with
        | none => (st, cd, [.invalidUserId sender])
        | some tid =>
          if action = "block" then
            if !st.blacklist.contains tid then
              let bl2 := st.blacklist ++ [tid]
              match dictGet st.apps target with
              | some app =>
                  if app.status = STATUS_pending then
                    let app2 := { app with status := STATUS_rejected,
                                           reject_reason := some BLOCKED_REASON }
                    (⟨dictDel st.apps target, bl2, dictSet st.archive target app2⟩,
                     cd, [.blockedNotice tid, .blockConfirm sender])
                  else ({ st with blacklist := bl2 }, cd,
                        [.blockedNotice tid, .blockConfirm sender])
              | none => ({ st with blacklist := bl2 }, cd,
                         [.blockedNotice tid, .blockConfirm sender])
            else (st, cd, [.alreadyBlocked sender])
          else if action = "unblock" then
            if st.blacklist.contains tid then
              ({ st with blacklist := st.blacklist.erase tid }, cd,
               [.unblockedNotice tid, .unblockConfirm sender])
            else (st, cd, [.notBlockedInfo sender])
          else if action = "approve" then
            match dictGet st.apps target with
            | some app =>
                let app2 := { app with status := STATUS_approved }
                let st1 := { st with apps := dictSet st.apps target app2 }
                let invite := send_simple_invite houses admins tid app2
                let st2 := move_to_archive st1 target app2
                (st2, cd, invite.2 ++
                  [if invite.1 then .approveConfirm sender else .approveLinkFailed sender])
            | none => (st, cd, [])
          else if action = "reject" then
            match dictGet st.apps target with
            | some _ =>
                (st, { cd with pending_reject_app := some target },
                 [.chooseRejectReason sender])
            | none => (st, cd, [])
          else if action = "reply" then
            match dictGet st.apps target with
            | some _ =>
                (st, { cd with replying_to := some target }, [.chooseReply sender])
            | none => (st, cd, [])
          else if action = "reject_custom" then
            (st, { cd with rejecting_app := some target }, [.enterRejectReason sender])
          else if action = "reply_custom" then
            (st, { cd with replying_to_custom := some target }, [.enterReply sender])
          else (st, cd, [.unknownCommand sender])

/-- One page of `show_archive_apps` (lines 2293-2360): a message per shown
archived record. -/
def show_archive_apps (sender : Int) (l : List (String × AppRecord))
    (start_index : Nat) : List OutMsg :=
  ((l.drop start_index).take 5).map (fun kv => OutMsg.archiveEntry sender kv.1)

/-- The decoded payload of an `archive_*` callback. -/
inductive ArchiveCbData
  | recent
  | approved
  | rejected
  | search
  | msg (target : String)
  | detail (app_id : String)
  | page (start_index : Nat) (title : String)
  | back
deriving DecidableEq

/-- The archived records listed for a page title (`approved` / `rejected` /
most recent ten), as in lines 2144-2150, 2160-2176 and 2273-2284. -/
def archive_listing (st : Store) (title : String) : List (String × AppRecord) :=
  if title = "approved" then st.archive.filter (fun kv => kv.2.status == STATUS_approved)
  else if title = "rejected" then st.archive.filter (fun kv => kv.2.status == STATUS_rejected)
  else (st.archive.mergeSort (fun x y => y.2.created_at ≤ x.2.created_at)).take 10

/-- Model of `handle_archive_callback` (lines 2137-2291).  A non-admin sender is
ignored with no reply (line 2138-2139).  All admin branches are read-only
on the store; two of them record a pending admin action in the chat data. -/
def handle_archive_callback (admins : List Int) (st : Store) (cd : ChatData)
    (sender : Int) (d : ArchiveCbData) : Store × ChatData × List OutMsg :=
  if !is_admin admins sender then (st, cd, [])
  else match d with
  | .recent =>
      let sorted := archive_listing st "recent"
      if sorted.isEmpty then (st, cd, [.archiveEmpty sender])
      else (st, cd, .archiveHeader sender :: show_archive_apps sender sorted 0)
  | .approved =>
      let l := archive_listing st "approved"
      if l.isEmpty then (st, cd, [.archiveEmpty sender])
      else (st, cd, .archiveHeader sender :: show_archive_apps sender l 0)
  | .rejected =>
      let l := archive_listing st "rejected"
      if l.isEmpty then (st, cd, [.archiveEmpty sender])
      else (st, cd, .archiveHeader sender :: show_archive_apps sender l 0)
  | .search =>
      (st, { cd with archive_action := some "search" }, [.archiveSearchPrompt sender])
  | .msg target =>
      (st, { cd with archive_replying_to := some target }, [.archiveMsgPrompt sender])
  | .detail app_id =>
      match dictGet st.archive app_id with
      | none => (st, cd, [.archiveNotFound sender])
      | some _ => (st, cd, [.archiveDetail sender app_id])
  | .page start_index title =>
      (st, cd, show_archive_apps sender (archive_listing st title) start_index)
  | .back => (st, cd, [.archiveMenu sender])

/-- The decoded payload of a `bl_*` callback. -/
inductive BlacklistCbData
  | add
  | remove
  | refresh
deriving DecidableEq

/-- Model of `handle_blacklist_callback` (lines 2484-2512).  A non-admin sender is
ignored with no reply.  The `bl_refresh` branch calls
`blacklist_command(update, context)` but no name `update` is in scope in
that function, so it raises `NameError` — modelled as `none`. -/
def handle_blacklist_callback (admins : List Int) (st : Store) (cd : ChatData)
    (sender : Int) (d : BlacklistCbData) :
    Option (Store × ChatData × List OutMsg) :=
  if !is_admin admins sender then some (st, cd, [])
  else match d with
  | .add =>
      some (st, { cd with blacklist_action := some "add" },
            [.blacklistAddPrompt sender])
  | .remove =>
      some (st, { cd with blacklist_action := some "remove" },
            [.blacklistRemovePrompt sender])
  | .refresh => none

/-- The `blacklist_action` branch of `handle_admin_reply` (lines 2546-2627):
the admin typed `text` after pressing the add/remove-by-ID button.  Note the
`≤ 0` and `< 100000` refusals return without clearing `blacklist_action`,
exactly as in the source. -/
def handle_blacklist_reply (st : Store) (cd : ChatData) (sender : Int)
    (action : String) (text : String) : Store × ChatData × List OutMsg :=
  if !pyIsDigitStr text || text = "0" then
    (st, { cd with blacklist_action := none }, [.blacklistCancelled sender])
  else
    match pyInt? text with
    | none => (st, cd, [.invalidIdFormat sender])
    | some target =>
        if target ≤ 0 then (st, cd, [.idNotPositive sender])
        else if target < 100000 then (st, cd, [.idTooSmall sender])
        else if action = "add" then
          if st.blacklist.contains target then
            (st, { cd with blacklist_action := none }, [.alreadyInBlacklist sender])
          else
            let bl2 := st.blacklist ++ [target]
            let key := toString target
            match dictGet st.apps key with
            | some app =>
                if app.status = STATUS_pending then
                  let app2 := { app with status := STATUS_rejected,
                                         reject_reason := some BLOCKED_REASON }
                  (⟨dictDel st.apps key, bl2, dictSet st.archive key app2⟩,
                   { cd with blacklist_action := none },
                   [.blockedNotice target, .addedToBlacklist sender])
                else ({ st with blacklist := bl2 },
                      { cd with blacklist_action := none },
                      [.blockedNotice target, .addedToBlacklist sender])
            | none => ({ st with blacklist := bl2 },
                       { cd with blacklist_action := none },
                       [.blockedNotice target, .addedToBlacklist sender])
        else if action = "remove" then
          if st.blacklist.contains target then
            ({ st with blacklist := st.blacklist.erase target },
             { cd with blacklist_action := none },
             [.unblockedNotice target, .removedFromBlacklist sender])
          else (st, { cd with blacklist_action := none }, [.notInBlacklist sender])
        else (st, { cd with blacklist_action := none }, [])

/-! ## Lemmas about the dict operations -/

theorem dictGet_dictSet_self {α : Type} (l : List (String × α)) (k : String) (v : α) :
    dictGet (dictSet l k v) k = some v := by
  induction l with
  | nil => simp [dictSet, dictGet]
  | cons hd tl ih =>
      obtain ⟨k', v'⟩ := hd
      by_cases h : k' = k
      · simp [dictSet, dictGet, h]
      · simp [dictSet, dictGet, h, ih]

theorem dictGet_none_of_not_mem {α : Type} {l : List (String × α)} {k : String}
    (h : k ∉ l.map Prod.fst) : dictGet l k = none := by
  induction l with
  | nil => rfl
  | cons hd tl ih =>
      obtain ⟨k', v'⟩ := hd
      simp only [List.map_cons, List.mem_cons] at h
      push_neg at h
      have hne : ¬ k' = k := fun hk => h.1 hk.symm
      simp [dictGet, hne, ih h.2]

theorem dictGet_dictDel_self {α : Type} {l : List (String × α)} (k : String)
    (h : keyNodup l) : dictGet (dictDel l k) k = none := by
  induction l with
  | nil => rfl
  | cons hd tl ih =>
      obtain ⟨k', v'⟩ := hd
      unfold keyNodup at h
      simp only [List.map_cons, List.nodup_cons] at h
      by_cases hk : k' = k
      · subst hk
        simpa [dictDel] using dictGet_none_of_not_mem h.1
      · simp [dictDel, hk, dictGet, ih h.2]

theorem mem_keys_dictSet {α : Type} {l : List (String × α)} {k k₀ : String} {v : α}
    (h : k ∈ (dictSet l k₀ v).map Prod.fst) : k ∈ l.map Prod.fst ∨ k = k₀ := by
  induction l with
  | nil => simpa [dictSet] using h
  | cons hd tl ih =>
      obtain ⟨k', v'⟩ := hd
      by_cases hk : k' = k₀
      · subst hk
        simp only [dictSet, if_true, eq_self_iff_true, List.map_cons,
          List.mem_cons] at h ⊢
        tauto
      · simp only [dictSet, if_neg hk, List.map_cons, List.mem_cons] at h ⊢
        rcases h with h | h
        · tauto
        · rcases ih h with h' | h' <;> tauto

theorem keyNodup_dictSet {α : Type} {l : List (String × α)} {k : String} {v : α}
    (h : keyNodup l) : keyNodup (dictSet l k v) := by
  induction l with
  | nil => simp [dictSet, keyNodup]
  | cons hd tl ih =>
      obtain ⟨k', v'⟩ := hd
      unfold keyNodup at h ⊢
      simp only [List.map_cons, List.nodup_cons] at h
      by_cases hk : k' = k
      · subst hk
        simp only [dictSet, if_true, eq_self_iff_true, List.map_cons,
          List.nodup_cons]
        exact h
      · simp only [dictSet, if_neg hk, List.map_cons, List.nodup_cons]
        refine ⟨fun hmem => ?_, ih h.2⟩
        rcases mem_keys_dictSet hmem with h' | h'
        · exact h.1 h'
        · exact hk h'

theorem dictGet_dictDel_none {α : Type} {l : List (String × α)} {k k₀ : String}
    (h : dictGet l k = none) : dictGet (dictDel l k₀) k = none := by
  induction l with
  | nil => rfl
  | cons hd tl ih =>
      obtain ⟨k', v'⟩ := hd
      by_cases hk : k' = k
      · simp [dictGet, hk] at h
      · simp only [dictGet, if_neg hk] at h
        by_cases hk0 : k' = k₀
        · simpa [dictDel, hk0] using h
        · simp [dictDel, hk0, dictGet, hk, ih h]

/-! ## Claims about `normalize_cadastre` (C1, C2, C9) -/

/-- The claimed format agrees, group by group, with the slice expressions of
the source's f-string. -/
theorem claimed_format_data (ds : List Char) :
    (claimed_cadastre_format ds).data =
      ds.take 2 ++ ':' :: ((ds.drop 2).take 2 ++ ':' ::
        ((ds.drop 4).take (ds.length - 7) ++ ':' :: ds.drop (ds.length - 3))) := by
  show (String.mk _ ++ String.mk [':'] ++ String.mk _ ++ String.mk [':'] ++
      String.mk _ ++ String.mk [':'] ++ String.mk _).data = _
  show (String.mk (ds.take 2 ++ [':'] ++ (ds.drop 2).take 2 ++ [':'] ++
      (ds.drop 4).take ((ds.drop 4).length - 3) ++ [':'] ++
      ds.drop (ds.length - 3))).data = _
  have h3 : (ds.drop 4).length - 3 = ds.length - 7 := by
    rw [List.length_drop]; omega
  rw [h3]
  simp [List.append_assoc]

/-- C1 (amended): an input normalizes successfully exactly when its digit
count is between 12 and 20; in the successful case the output is the
positional `DD:DD:D...D:DDD` string built from the digit subsequence, with
no further validation; with fewer than 12 digits the result is `None`, and
— contrary to the original claim — with more than 20 digits the result is
also `None`. -/
theorem C1_normalize_positional_form (text : String) :
    (12 ≤ (text.data.filter Char.isDigit).length ∧
        (text.data.filter Char.isDigit).length ≤ 20 →
      normalize_cadastre text =
        some (claimed_cadastre_format (text.data.filter Char.isDigit))) ∧
    ((text.data.filter Char.isDigit).length < 12 → normalize_cadastre text = none) ∧
    (20 < (text.data.filter Char.isDigit).length → normalize_cadastre text = none) := by
  refine ⟨fun ⟨h12, h20⟩ => ?_, fun h => ?_, fun h => ?_⟩
  · have h1 : ¬ (text.data.filter Char.isDigit).length < 12 := Nat.not_lt.mpr h12
    have h2 : ¬ (text.data.filter Char.isDigit).length > 20 := Nat.not_lt.mpr h20
    unfold normalize_cadastre format_digits
    simp only [h1, h2, decide_False, Bool.or_self, Bool.false_eq_true, if_false,
      Option.some.injEq]
    exact (String.ext (claimed_format_data _)).symm
  · unfold normalize_cadastre format_digits
    simp [h]
  · unfold normalize_cadastre format_digits
    simp [h]

/-- Witness for C1 at the spec's own example input. -/
theorem C1_witness :
    normalize_cadastre "77 01 0012345 678" =
      some (claimed_cadastre_format ("77 01 0012345 678".data.filter Char.isDigit)) :=
  (C1_normalize_positional_form "77 01 0012345 678").1 (by decide)

/-- Counterexample to C1 as stated: an input with 21 digit characters (at
least 12) is rejected by the source's upper bound `len(digits) > 20`, not
normalized. -/
theorem C1_counterexample :
    normalize_cadastre "111111111111111111111" = none := rfl

/-- C2: the result of `normalize_cadastre` depends only on the digit
subsequence of the input — inserting arbitrary non-digit characters at
arbitrary positions (the `DigitPadded` relation) never changes it. -/
theorem C2_insert_nondigits_invariant (s t : String)
    (h : DigitPadded s.data t.data) :
    normalize_cadastre t = normalize_cadastre s := by
  unfold normalize_cadastre
  rw [h.filter_eq]

/-- Witness for C2: `"77:01:0012345:678"` arises from `"770100123456 78"`'s
digit content... concretely, `"1 2"` arises from `"12"` by inserting a
space. -/
theorem C2_witness : normalize_cadastre "1 2" = normalize_cadastre "12" :=
  C2_insert_nondigits_invariant "12" "1 2"
    (DigitPadded.keep '1' (DigitPadded.pad ' ' (by decide)
      (DigitPadded.keep '2' DigitPadded.nil)))

/-- C9: normalization succeeds exactly when the input's digit count lies in
`[12, 20]` (in particular, more than 20 digits give the no-match result). -/
theorem C9_success_iff_digit_count (text : String) :
    (normalize_cadastre text).isSome = true ↔
      (12 ≤ (text.data.filter Char.isDigit).length ∧
        (text.data.filter Char.isDigit).length ≤ 20) := by
  unfold normalize_cadastre format_digits
  by_cases h12 : 12 ≤ (text.data.filter Char.isDigit).length
  · by_cases h20 : (text.data.filter Char.isDigit).length ≤ 20
    · simp [Nat.not_lt.mpr h12, Nat.not_lt.mpr h20, h12, h20]
    · simp only [not_le] at h20
      simp [h20, Nat.le_of_lt h20]
  · simp only [not_le] at h12
    simp [h12]

/-! ## Blocked-user guard lemmas (shared by claims C6 and C10) -/

theorem blocked_guard_msgs (st : Store) (uid : Int) :
    (blocked_guard st uid).2 = [OutMsg.blockedNotice uid] := by
  simp only [blocked_guard]
  cases h : dictGet st.apps (toString uid) with
  | none => rfl
  | some app => by_cases hp : app.status = STATUS_pending <;> simp [hp]

theorem blocked_guard_no_new (st : Store) (uid : Int) (k : String)
    (h : dictGet st.apps k = none) :
    dictGet (blocked_guard st uid).1.apps k = none := by
  simp only [blocked_guard]
  cases hg : dictGet st.apps (toString uid) with
  | none => simpa using h
  | some app =>
      by_cases hp : app.status = STATUS_pending
      · simp only [hp, move_to_archive, if_true, eq_self_iff_true, ite_true]
        exact dictGet_dictDel_none h
      · simpa [hp] using h

theorem blocked_guard_pending (st : Store) (uid : Int) (app : AppRecord)
    (happ : dictGet st.apps (toString uid) = some app)
    (hpend : app.status = STATUS_pending) :
    (blocked_guard st uid).1 =
      move_to_archive st (toString uid)
        { app with status := STATUS_rejected, reject_reason := some BLOCKED_REASON } := by
  simp only [blocked_guard]
  rw [happ]
  simp [hpend]

/-! ## Claim C6 -/

/-- C6 (amended): for every blocked non-admin user, a `/start` command or a
file upload is answered with the block notice only, and a text-message
update is answered with the block notice only unless the stripped text is a
single character while the session is at the `contact` step — in that case
the group-1 text handler (`admin_text_handler`, which runs on the same
update before `handle_message` and has no blocklist check) first replies
with the contact-cancellation notice, clearing the session but touching no
record, and the block notice follows; in every one of these cases no
state-machine prompt is sent and no new application record is created.  The
original claim's "every inbound event" also fails for button-press
callbacks, which are dispatched without a blocklist check (line 1816); the
counterexample exhibits both failures. -/
theorem C6_blocklist_suppression (admins : List Int)
    (houses : List (String × House)) (st : Store) (sess : Session)
    (cd : ChatData) (uid : Int) (rawText : String)
    (hadm : is_admin admins uid = false) (hbl : is_blocked st uid = true) :
    (∀ rest, (start_handler admins st uid rest).2.2 = [OutMsg.blockedNotice uid] ∧
      ∀ k, dictGet st.apps k = none →
        dictGet (start_handler admins st uid rest).1.apps k = none) ∧
    (∀ rest, (handle_file admins st sess uid rest).2.2 = [OutMsg.blockedNotice uid] ∧
      ∀ k, dictGet st.apps k = none →
        dictGet (handle_file admins st sess uid rest).1.apps k = none) ∧
    (∀ adminReplyCont adminCont,
      (((pyStrip rawText).length == 1 && sess.step == some "contact") = false →
        (text_message_event admins houses adminReplyCont adminCont st sess cd
          uid rawText).2.2.2 = [OutMsg.blockedNotice uid]) ∧
      (((pyStrip rawText).length == 1 && sess.step == some "contact") = true →
        (text_message_event admins houses adminReplyCont adminCont st sess cd
          uid rawText).2.2.2 =
          [OutMsg.contactCancelled uid, OutMsg.blockedNotice uid]) ∧
      ∀ k, dictGet st.apps k = none →
        dictGet (text_message_event admins houses adminReplyCont adminCont st
          sess cd uid rawText).1.apps k = none) := by
  have hmsgs := blocked_guard_msgs st uid
  refine ⟨fun rest => ⟨?_, fun k hk => ?_⟩, fun rest => ⟨?_, fun k hk => ?_⟩,
    fun adminReplyCont adminCont =>
      ⟨fun hcond => ?_, fun hcond => ?_, fun k hk => ?_⟩⟩
  · simp [start_handler, hadm, hbl, hmsgs]
  · simp [start_handler, hadm, hbl, blocked_guard_no_new st uid k hk]
  · simp [handle_file, hadm, hbl, hmsgs]
  · simp [handle_file, hadm, hbl, blocked_guard_no_new st uid k hk]
  · simp [text_message_event, admin_text_handler, handle_message, hadm, hbl,
      hcond, hmsgs]
  · simp [text_message_event, admin_text_handler, handle_message, hadm, hbl,
      hcond, hmsgs]
  · by_cases hcond :
      ((pyStrip rawText).length == 1 && sess.step == some "contact") = true
    · simp [text_message_event, admin_text_handler, handle_message, hadm, hbl,
        hcond, blocked_guard_no_new st uid k hk]
    · rw [Bool.not_eq_true] at hcond
      simp [text_message_event, admin_text_handler, handle_message, hadm, hbl,
        hcond, blocked_guard_no_new st uid k hk]

/-- Session fixture for C6: blocked user 5 is stalled at the contact step of
a session begun before the block. -/
def c6_contact_sess : Session :=
  { step := some "contact", contact_data := some ⟨"", []⟩ }

/-- Witness for C6: blocked non-admin user 5 sends `/start` (block notice
only, no record) and, stalled at the contact step, the one-character text
"x" (the group-1 cancellation reply, then the block notice). -/
theorem C6_witness :
    (start_handler [1] ⟨[], [5], []⟩ 5 (fun s => (s, {}, []))).2.2 =
      [OutMsg.blockedNotice 5] ∧
    (text_message_event [1] [] (fun s sess cd _ => (s, sess, cd, []))
        (fun s sess _ => (s, sess, [])) ⟨[], [5], []⟩ c6_contact_sess {} 5
        "x").2.2.2 = [OutMsg.contactCancelled 5, OutMsg.blockedNotice 5] ∧
    dictGet (start_handler [1] ⟨[], [5], []⟩ 5 (fun s => (s, {}, []))).1.apps
      "5" = none := by
  have h := C6_blocklist_suppression [1] [] ⟨[], [5], []⟩ c6_contact_sess {} 5
    "x" (by decide) (by decide)
  exact ⟨(h.1 (fun s => (s, {}, []))).1,
    ((h.2.2 (fun s sess cd _ => (s, sess, cd, []))
      (fun s sess _ => (s, sess, []))).2.1 (by decide)),
    (h.1 (fun s => (s, {}, []))).2 "5" rfl⟩

/-- Store and session fixtures for the C6 counterexample: user 5 is blocked
but still has the confirmation keyboard of a session begun before the
block. -/
def c6_store : Store := ⟨[], [5], []⟩

def c6_sess : Session :=
  { step := none, house_id := some "house1", flat := some "12",
    cad := some "77:01:0012345:678" }

def c6_user : UserInfo := ⟨5, "Alice", some "alice"⟩

/-- Counterexample to C6 as stated, in both ways it fails: (a) a blocked
user's confirm-button press — an inbound event forwarded with no blocklist
check (`handle_callback`, line 1816) — creates a brand-new pending record
and replies without the block notice; (b) even a text message is not
answered by the block notice alone: a blocked user at the contact step
sending the one-character text "x" receives the group-1 cancellation reply
before the block notice. -/
theorem C6_counterexample :
    (∃ st2 sess2 msgs,
      handle_user_callback [1] "2025-01-01T00:00:00+00:00" c6_store c6_sess
          c6_user .cad_ok = some (st2, sess2, msgs) ∧
      (∃ app, dictGet st2.apps "5" = some app ∧ app.status = STATUS_pending) ∧
      OutMsg.blockedNotice 5 ∉ msgs) ∧
    (text_message_event [1] [] (fun s sess cd _ => (s, sess, cd, []))
        (fun s sess _ => (s, sess, [])) c6_store c6_contact_sess {} 5
        "x").2.2.2 = [OutMsg.contactCancelled 5, OutMsg.blockedNotice 5] ∧
    [OutMsg.contactCancelled 5, OutMsg.blockedNotice 5] ≠
      [OutMsg.blockedNotice 5] := by
  refine ⟨⟨_, _, _, rfl, ⟨_, rfl, rfl⟩, ?_⟩, rfl, ?_⟩
  · simp
  · intro h
    simpa using congrArg List.length h

/-! ## Claim C10 -/

/-- C10: for a blocked non-admin user who still has a pending application,
any of the three message-type inbound events (start command, text message,
file upload) mutates the store as a side effect of the block notice: the
record's status becomes rejected with the fixed blocked reason, and the
record moves from the active application store into the archive. -/
theorem C10_blocked_event_rejects_pending (admins : List Int) (st : Store)
    (sess : Session) (uid : Int) (app : AppRecord)
    (hadm : is_admin admins uid = false) (hbl : is_blocked st uid = true)
    (hnodup : keyNodup st.apps)
    (happ : dictGet st.apps (toString uid) = some app)
    (hpend : app.status = STATUS_pending) :
    ∀ (rest₁ : Store → Store × Session × List OutMsg)
      (houses : List (String × House))
      (adminCont : Store → Session → String → Store × Session × List OutMsg)
      (rawText : String)
      (rest₂ : Store → Session → Store × Session × List OutMsg),
      (dictGet (start_handler admins st uid rest₁).1.archive (toString uid) =
          some { app with status := STATUS_rejected,
                          reject_reason := some BLOCKED_REASON } ∧
        dictGet (start_handler admins st uid rest₁).1.apps (toString uid) = none) ∧
      (dictGet (handle_message admins houses adminCont st sess uid rawText).1.archive
          (toString uid) =
          some { app with status := STATUS_rejected,
                          reject_reason := some BLOCKED_REASON } ∧
        dictGet (handle_message admins houses adminCont st sess uid rawText).1.apps
          (toString uid) = none) ∧
      (dictGet (handle_file admins st sess uid rest₂).1.archive (toString uid) =
          some { app with status := STATUS_rejected,
                          reject_reason := some BLOCKED_REASON } ∧
        dictGet (handle_file admins st sess uid rest₂).1.apps (toString uid) = none) := by
  intro rest₁ houses adminCont rawText rest₂
  have hguard := blocked_guard_pending st uid app happ hpend
  have harch :
      dictGet (blocked_guard st uid).1.archive (toString uid) =
        some { app with status := STATUS_rejected,
                        reject_reason := some BLOCKED_REASON } := by
    rw [hguard]
    exact dictGet_dictSet_self _ _ _
  have happs : dictGet (blocked_guard st uid).1.apps (toString uid) = none := by
    rw [hguard]
    exact dictGet_dictDel_self _ hnodup
  refine ⟨⟨?_, ?_⟩, ⟨?_, ?_⟩, ⟨?_, ?_⟩⟩ <;>
    simp [start_handler, handle_message, handle_file, hadm, hbl, harch, happs]

/-- Fixture for the C10 witness: user 5 is blocked with a pending record. -/
def c10_app : AppRecord :=
  { user_id := 5, name := "Alice", username := some "alice",
    house_id := "house1", flat := "12", cadastre := "77:01:0012345:678",
    file := none, status := STATUS_pending, reject_reason := none,
    created_at := "2025-01-01T00:00:00+00:00" }

def c10_store : Store := ⟨[("5", c10_app)], [5], []⟩

/-- Witness for C10: the blocked user's `/start` archives their pending
record as rejected with the blocked reason. -/
theorem C10_witness :
    dictGet (start_handler [1] c10_store 5 (fun s => (s, {}, []))).1.archive "5" =
      some { c10_app with status := STATUS_rejected,
                          reject_reason := some BLOCKED_REASON } ∧
    dictGet (start_handler [1] c10_store 5 (fun s => (s, {}, []))).1.apps "5" = none := by
  have h := C10_blocked_event_rejects_pending [1] c10_store {} 5 c10_app
    (by decide) (by decide) (by simp [keyNodup, c10_store]) rfl rfl
    (fun s => (s, {}, [])) [] (fun s sess _ => (s, sess, [])) "hi"
    (fun s sess => (s, sess, []))
  exact h.1

/-! ## Claim C3 -/

/-- C3: a successful confirm-button press (`cad_ok`) stores a pending record
under the user's id with the apartment, cadastral number, requester identity
(user id and name) and creation timestamp all populated from the submission
data, clears the in-memory session, and sends a new-application notification
to every configured admin. -/
theorem C3_submission_stores_pending (admins : List Int) (now : String)
    (st : Store) (sess : Session) (u : UserInfo) (house flat cad : String)
    (hh : sess.house_id = some house) (hf : sess.flat = some flat)
    (hc : sess.cad = some cad) :
    ∃ st2 msgs,
      handle_user_callback admins now st sess u .cad_ok =
        some (st2, Session.empty, msgs) ∧
      dictGet st2.apps (toString u.id) = some
        { user_id := u.id, name := u.full_name, username := u.username,
          house_id := house, flat := flat, cadastre := cad, file := none,
          status := STATUS_pending, reject_reason := none, created_at := now } ∧
      ∀ a ∈ admins, OutMsg.newAppNotice a ∈ msgs := by
  obtain ⟨step, hid, fl, cd, cdata⟩ := sess
  simp only at hh hf hc
  subst hh hf hc
  refine ⟨_, _, rfl, dictGet_dictSet_self _ _ _, fun a ha => ?_⟩
  simp only [List.mem_append, List.mem_map]
  exact Or.inl (Or.inl ⟨a, ha, rfl⟩)

/-- Session and user fixtures for the C3 witness. -/
def c3_sess : Session :=
  { step := none, house_id := some "house1", flat := some "12",
    cad := some "77:01:0012345:678" }

def c3_user : UserInfo := ⟨7, "Bob", some "bob"⟩

/-- Witness for C3 at a concrete submission. -/
theorem C3_witness :
    ∃ st2 msgs,
      handle_user_callback [1, 2] "2025-01-01T00:00:00+00:00" ⟨[], [], []⟩
          c3_sess c3_user .cad_ok = some (st2, Session.empty, msgs) ∧
      dictGet st2.apps (toString (7 : Int)) = some
        { user_id := 7, name := "Bob", username := some "bob",
          house_id := "house1", flat := "12", cadastre := "77:01:0012345:678",
          file := none, status := STATUS_pending, reject_reason := none,
          created_at := "2025-01-01T00:00:00+00:00" } ∧
      ∀ a ∈ [1, 2], OutMsg.newAppNotice a ∈ msgs :=
  C3_submission_stores_pending [1, 2] "2025-01-01T00:00:00+00:00" ⟨[], [], []⟩
    c3_sess c3_user "house1" "12" "77:01:0012345:678" rfl rfl rfl

/-! ## Claim C4 -/

/-- C4: the admin approve action moves an existing record's status away from
pending to approved (and into the archive), rejection via
`process_rejection` moves it to rejected, both are one-way within a session,
and a second approve of the same user id leaves the whole store exactly as
the first left it (idempotence — in fact the second call is a no-op because
the record has left the active store). -/
theorem C4_decisions_one_way (admins : List Int) (houses : List (String × House))
    (rR rP : String → Option String) (st : Store) (cd cd' : ChatData)
    (sender tid : Int) (target : String) (app : AppRecord) (reason : String)
    (hadm : is_admin admins sender = true)
    (hparse : pyInt? target = some tid)
    (hnodup : keyNodup st.apps)
    (happ : dictGet st.apps target = some app) :
    (dictGet (handle_admin_callback admins houses rR rP st cd sender
        (.act "approve" target none)).1.archive target =
        some { app with status := STATUS_approved } ∧
      dictGet (handle_admin_callback admins houses rR rP st cd sender
        (.act "approve" target none)).1.apps target = none ∧
      STATUS_approved ≠ STATUS_pending ∧
      (handle_admin_callback admins houses rR rP
          (handle_admin_callback admins houses rR rP st cd sender
            (.act "approve" target none)).1 cd' sender
          (.act "approve" target none)).1 =
        (handle_admin_callback admins houses rR rP st cd sender
          (.act "approve" target none)).1) ∧
    (dictGet (process_rejection st cd target reason sender).1.archive target =
        some { app with status := STATUS_rejected,
                        reject_reason := some reason } ∧
      dictGet (process_rejection st cd target reason sender).1.apps target = none ∧
      STATUS_rejected ≠ STATUS_pending ∧
      (process_rejection (process_rejection st cd target reason sender).1 cd'
          target reason sender).1 =
        (process_rejection st cd target reason sender).1) := by
  have happrove : (handle_admin_callback admins houses rR rP st cd sender
      (.act "approve" target none)).1 =
      ⟨dictDel (dictSet st.apps target { app with status := STATUS_approved }) target,
       st.blacklist,
       dictSet st.archive target { app with status := STATUS_approved }⟩ := by
    simp [handle_admin_callback, hadm, hparse, happ, move_to_archive]
  have happs : dictGet (handle_admin_callback admins houses rR rP st cd sender
      (.act "approve" target none)).1.apps target = none := by
    rw [happrove]
    exact dictGet_dictDel_self _ (keyNodup_dictSet hnodup)
  have hrej : (process_rejection st cd target reason sender).1 =
      ⟨dictDel st.apps target, st.blacklist,
       dictSet st.archive target
         { app with status := STATUS_rejected, reject_reason := some reason }⟩ := by
    simp [process_rejection, happ, move_to_archive]
  have hrapps : dictGet (process_rejection st cd target reason sender).1.apps
      target = none := by
    rw [hrej]
    exact dictGet_dictDel_self _ hnodup
  refine ⟨⟨?_, happs, by decide, ?_⟩, ⟨?_, hrapps, by decide, ?_⟩⟩
  · rw [happrove]
    exact dictGet_dictSet_self _ _ _
  · have h2 := happs
    generalize (handle_admin_callback admins houses rR rP st cd sender
      (AdminCbData.act "approve" target none)).1 = st1 at h2 ⊢
    simp [handle_admin_callback, hadm, hparse, h2]
  · rw [hrej]
    exact dictGet_dictSet_self _ _ _
  · have h2 := hrapps
    generalize (process_rejection st cd target reason sender).1 = st1 at h2 ⊢
    simp [process_rejection, h2]

/-- Record and store fixtures for the C4 witness. -/
def c4_app : AppRecord :=
  { user_id := 123456, name := "Carol", username := none, house_id := "house1",
    flat := "7", cadastre := "77:01:0012345:678", file := none,
    status := STATUS_pending, reject_reason := none, created_at := "t" }

def c4_store : Store := ⟨[("123456", c4_app)], [], []⟩

/-- Witness for C4: approving user 123456 archives the record as approved. -/
theorem C4_witness :
    dictGet (handle_admin_callback [1] [] (fun _ => none) (fun _ => none)
        c4_store {} 1 (.act "approve" "123456" none)).1.archive "123456" =
      some { c4_app with status := STATUS_approved } :=
  (C4_decisions_one_way [1] [] (fun _ => none) (fun _ => none) c4_store {} {}
    1 123456 "123456" c4_app "no" (by decide) (by decide)
    (by simp [keyNodup, c4_store]) rfl).1.1

/-! ## Claim C5 -/

/-- C5 (amended): blocking a user who has a pending application — via the
admin block button or via the blacklist add-by-ID flow — adds the user id
to the blocklist and leaves that application rejected with the fixed,
non-empty "blocked" reason, provided the user is not already on the
blocklist (blocking an already-blocked user answers "already blocked" and
leaves the pending application untouched, see the counterexample) and, for
the add-by-ID flow, the typed id passes the flow's sanity bound of at least
100000. -/
theorem C5_block_rejects_pending (admins : List Int)
    (houses : List (String × House)) (rR rP : String → Option String)
    (st : Store) (cd : ChatData) (sender tid : Int) (target text : String)
    (app : AppRecord)
    (hadm : is_admin admins sender = true)
    (hnotbl : st.blacklist.contains tid = false)
    (hparse : pyInt? target = some tid)
    (happ : dictGet st.apps target = some app)
    (hpend : app.status = STATUS_pending)
    (htarget : target = toString tid)
    (hdig : pyIsDigitStr text = true)
    (hparse2 : pyInt? text = some tid)
    (hbig : 100000 ≤ tid) :
    (tid ∈ (handle_admin_callback admins houses rR rP st cd sender
        (.act "block" target none)).1.blacklist ∧
      dictGet (handle_admin_callback admins houses rR rP st cd sender
        (.act "block" target none)).1.archive target =
        some { app with status := STATUS_rejected,
                        reject_reason := some BLOCKED_REASON } ∧
      BLOCKED_REASON ≠ "") ∧
    (tid ∈ (handle_blacklist_reply st cd sender "add" text).1.blacklist ∧
      dictGet (handle_blacklist_reply st cd sender "add" text).1.archive target =
        some { app with status := STATUS_rejected,
                        reject_reason := some BLOCKED_REASON } ∧
      BLOCKED_REASON ≠ "") := by
  have hne0 : text ≠ "0" := by
    intro h0
    rw [h0] at hparse2
    have h00 : pyInt? "0" = some 0 := rfl
    rw [h00] at hparse2
    have h01 := Option.some.inj hparse2
    omega
  have h1 : ¬ tid ≤ 0 := by omega
  have h2 : ¬ tid < 100000 := by omega
  have hmem : tid ∉ st.blacklist := by simpa using hnotbl
  have happ2 : dictGet st.apps (toString tid) = some app := by
    rw [← htarget]; exact happ
  constructor
  · have hblock : (handle_admin_callback admins houses rR rP st cd sender
        (.act "block" target none)).1 =
        ⟨dictDel st.apps target, st.blacklist ++ [tid],
         dictSet st.archive target
           { app with status := STATUS_rejected,
                      reject_reason := some BLOCKED_REASON }⟩ := by
      simp [handle_admin_callback, hadm, hparse, hnotbl, hmem, happ, hpend]
    rw [hblock]
    refine ⟨by simp, dictGet_dictSet_self _ _ _, by decide⟩
  · have hreply : (handle_blacklist_reply st cd sender "add" text).1 =
        ⟨dictDel st.apps target, st.blacklist ++ [tid],
         dictSet st.archive target
           { app with status := STATUS_rejected,
                      reject_reason := some BLOCKED_REASON }⟩ := by
      simp [handle_blacklist_reply, hdig, hne0, hparse2, h1, h2, hnotbl, hmem,
        happ2, hpend, htarget]
    rw [hreply]
    refine ⟨by simp, dictGet_dictSet_self _ _ _, by decide⟩

/-- Record and store fixtures for the C5 witness. -/
def c5_app : AppRecord :=
  { user_id := 123457, name := "Dave", username := none, house_id := "house1",
    flat := "9", cadastre := "77:01:0012345:678", file := none,
    status := STATUS_pending, reject_reason := none, created_at := "t" }

def c5_store : Store := ⟨[("123457", c5_app)], [], []⟩

/-- Witness for C5: blocking user 123457 (not yet blocked, pending record)
via the button blacklists them and archives the record as rejected with the
blocked reason. -/
theorem C5_witness :
    (123457 : Int) ∈ (handle_admin_callback [1] [] (fun _ => none)
        (fun _ => none) c5_store {} 1 (.act "block" "123457" none)).1.blacklist ∧
    dictGet (handle_admin_callback [1] [] (fun _ => none) (fun _ => none)
        c5_store {} 1 (.act "block" "123457" none)).1.archive "123457" =
      some { c5_app with status := STATUS_rejected,
                         reject_reason := some BLOCKED_REASON } ∧
    BLOCKED_REASON ≠ "" :=
  (C5_block_rejects_pending [1] [] (fun _ => none) (fun _ => none) c5_store {}
    1 123457 "123457" "123457" c5_app (by decide) (by decide) (by decide) rfl
    rfl (by decide) (by decide) (by decide) (by decide)).1

/-- Fixtures for the C5 counterexample: user 555555 is already blocked and
still has a pending application. -/
def c5x_app : AppRecord :=
  { user_id := 555555, name := "Eve", username := none, house_id := "house1",
    flat := "3", cadastre := "77:01:0012345:678", file := none,
    status := STATUS_pending, reject_reason := none, created_at := "t" }

def c5x_store : Store := ⟨[("555555", c5x_app)], [555555], []⟩

/-- Counterexample to C5 as stated: blocking a user who is already on the
blocklist (and has a pending application) answers "already blocked" and
leaves the application pending — it is not rejected. -/
theorem C5_counterexample :
    handle_admin_callback [1] [] (fun _ => none) (fun _ => none) c5x_store {}
        1 (.act "block" "555555" none) =
      (c5x_store, {}, [OutMsg.alreadyBlocked 1]) ∧
    dictGet c5x_store.apps "555555" = some c5x_app ∧
    c5x_app.status = STATUS_pending := ⟨rfl, rfl, rfl⟩

/-! ## Claim C7 -/

/-- C7 (amended): at the cadastral-entry step, every text that is not one of
the five reserved menu commands and that the normalizer rejects leaves the
store and the whole session (step, apartment, house) unchanged, and
re-prompts with the retry message; the original claim fails for the menu
commands, which the handler intercepts before the step dispatch (see the
counterexample, where "❌ Отмена" wipes the session). -/
theorem C7_cad_failure_preserves_state (admins : List Int)
    (houses : List (String × House)) (st : Store) (sess : Session)
    (uid : Int) (text : String)
    (hstep : sess.step = some "cad")
    (h1 : text ≠ "📋 Статус заявки") (h2 : text ≠ "📨 Написать админу")
    (h3 : text ≠ "❌ Отмена") (h4 : text ≠ "📝 Подать заявку")
    (h5 : text ≠ "📝 Подать новую заявку")
    (hnorm : normalize_cadastre text = none) :
    handle_user_message admins houses st sess uid text =
      (st, sess, [OutMsg.cadInvalid uid]) := by
  simp [handle_user_message, hstep, hnorm, h1, h2, h3, h4, h5]

/-- Session fixture for the C7 witness and counterexample: the user is at
the cadastral step with the apartment and house already recorded. -/
def c7_sess : Session :=
  { step := some "cad", house_id := some "house1", flat := some "12" }

/-- Witness for C7: the unparseable text "abc" is re-prompted and the
session survives unchanged. -/
theorem C7_witness :
    handle_user_message [1] [] ⟨[], [], []⟩ c7_sess 5 "abc" =
      (⟨[], [], []⟩, c7_sess, [OutMsg.cadInvalid 5]) :=
  C7_cad_failure_preserves_state [1] [] ⟨[], [], []⟩ c7_sess 5 "abc" rfl
    (by decide) (by decide) (by decide) (by decide) (by decide) rfl

/-- Counterexample to C7 as stated: "❌ Отмена" contains no digits, so the
normalizer rejects it, yet at the cadastral step the handler clears the
whole session (the stored apartment and house are dropped) instead of
re-prompting with the state intact. -/
theorem C7_counterexample :
    normalize_cadastre "❌ Отмена" = none ∧
    handle_user_message [1] [] ⟨[], [], []⟩ c7_sess 5 "❌ Отмена" =
      (⟨[], [], []⟩, Session.empty, [OutMsg.entryCancelled 5]) ∧
    c7_sess.flat = some "12" ∧ Session.empty.flat = none ∧
    c7_sess.step = some "cad" ∧ Session.empty.step = none :=
  ⟨rfl, rfl, rfl, rfl, rfl, rfl⟩

/-! ## Claim C8 -/

/-- C8 (amended): a non-admin invoking any admin-only callback causes no
change to the application store, archive, blocklist or admin chat state;
the `handle_admin_callback` actions (approve, reject, block, unblock,
reply, templates) answer with the fixed denial message, while the archive
and blacklist callback handlers ignore the event silently with no reply at
all — the original claim's "fixed denial message" is wrong for the latter
two (see the counterexample). -/
theorem C8_unauthorized_no_change (admins : List Int)
    (houses : List (String × House)) (rR rP : String → Option String)
    (st : Store) (cd : ChatData) (sender : Int)
    (dA : AdminCbData) (dAr : ArchiveCbData) (dB : BlacklistCbData)
    (h : is_admin admins sender = false) :
    handle_admin_callback admins houses rR rP st cd sender dA =
      (st, cd, [OutMsg.noRights sender]) ∧
    handle_archive_callback admins st cd sender dAr = (st, cd, []) ∧
    handle_blacklist_callback admins st cd sender dB = some (st, cd, []) := by
  refine ⟨?_, ?_, ?_⟩ <;>
    simp [handle_admin_callback, handle_archive_callback,
      handle_blacklist_callback, h]

/-- Witness for C8: non-admin 2 pressing the approve button of user 5 is
denied and nothing changes. -/
theorem C8_witness :
    handle_admin_callback [1] [] (fun _ => none) (fun _ => none) ⟨[], [], []⟩
        {} 2 (.act "approve" "5" none) = (⟨[], [], []⟩, {}, [OutMsg.noRights 2]) ∧
    handle_archive_callback [1] ⟨[], [], []⟩ {} 2 .recent = (⟨[], [], []⟩, {}, []) ∧
    handle_blacklist_callback [1] ⟨[], [], []⟩ {} 2 .add =
      some (⟨[], [], []⟩, {}, []) :=
  C8_unauthorized_no_change [1] [] (fun _ => none) (fun _ => none) ⟨[], [], []⟩
    {} 2 (.act "approve" "5" none) .recent .add (by decide)

/-- Counterexample to C8 as stated: a non-admin invoking the archive-recent
action receives no reply at all — in particular not the claimed fixed
denial message. -/
theorem C8_counterexample :
    (handle_archive_callback [1] ⟨[], [], []⟩ {} 2 .recent).2.2 = [] := rfl

end DomChatBot
